import Mathlib

/-!
Verification of the easyticket_invoice repository core: the tax calculator
(`compute_gross`, `compute_taxes` in invoice.py), invoice assembly
(`Invoice.add_tax_category`, `Invoice.add_article`) and the WeasyPrint
resource-access gate (`WeasyRenderer.fetch_url` in weasyprint_invoice.py).

Python `decimal.Decimal` values are modelled as exact rationals (`ℚ`).
The default decimal context has 28 significant digits of working precision,
far beyond the magnitudes of currency amounts handled here, so intermediate
products and quotients are modelled as exact.  The one operation whose
rounding matters is `Decimal.quantize`, which rounds a value to the exponent
of its argument using the context rounding mode; the default context mode is
ROUND_HALF_EVEN (ties go to the even last digit).  A quantize argument such
as `Decimal(0.01)` (exponent -2) is modelled by its number of fractional
digits `k : ℕ`, and quantizing rounds to the nearest multiple of `10 ^ (-k)`.
Division by zero raises `decimal.DivisionByZero` (or `decimal.InvalidOperation`
for 0/0), both arithmetic errors; fallible operations return `Except`.
-/

/-- Errors raised by Python decimal arithmetic; both are subclasses of
`ArithmeticError`.  `x / 0` raises `DivisionByZero` for `x ≠ 0` and
`InvalidOperation` for `x = 0`. -/
inductive DecimalError where
  | divisionByZero
  | invalidOperation
deriving DecidableEq

/-- Round a rational to the nearest integer, ties to the even integer.
This is `decimal.ROUND_HALF_EVEN`, the rounding mode of the default
decimal context used by `Decimal.quantize` in the source. -/
def roundHalfEven (x : ℚ) : ℤ :=
  if x - ⌊x⌋ < 1/2 then ⌊x⌋
  else if 1/2 < x - ⌊x⌋ then ⌊x⌋ + 1
  else if ⌊x⌋ % 2 = 0 then ⌊x⌋ else ⌊x⌋ + 1

/-- `Decimal.quantize` with a target of `k` fractional digits (for example
`Decimal(0.01)` is `k = 2`): round to the nearest multiple of `10 ^ (-k)`
under the default context rounding ROUND_HALF_EVEN. -/
def decQuantize (x : ℚ) (k : ℕ) : ℚ :=
  (roundHalfEven (x * 10 ^ k) : ℚ) / 10 ^ k

/-- Python decimal division: raises on a zero divisor
(`InvalidOperation` when the dividend is also zero, else `DivisionByZero`),
otherwise modelled as exact. -/
def decDiv (x y : ℚ) : Except DecimalError ℚ :=
  if y = 0 then
    .error (if x = 0 then .invalidOperation else .divisionByZero)
  else
    .ok (x / y)

/-- `compute_gross` from invoice.py (lines 60-86): taxes are computed at
full precision as `net * tax_rate`; when a quantize exponent is given, net
and taxes are each quantized and the returned gross is the sum of the two
quantized components. -/
def compute_gross (net tax_rate : ℚ) (quantize : Option ℕ) : ℚ × ℚ × ℚ :=
  match quantize with
  | none =>
      let taxes := net * tax_rate
      (net, taxes, net + taxes)
  | some k =>
      let net' := decQuantize net k
      let taxes' := decQuantize (net * tax_rate) k
      (net', taxes', net' + taxes')

/-- `compute_taxes` from invoice.py (lines 89-114).  With `tax_rate = None`
the taxes are `Decimal(0)`, gross (and the zero taxes) are quantized when a
quantize exponent is given, and `(gross, taxes, gross)` is returned.
Otherwise `net = gross / (1 + tax_rate)` (a decimal division, which raises on
a zero divisor) and the result is delegated to `compute_gross`. -/
def compute_taxes (gross : ℚ) (tax_rate : Option ℚ) (quantize : Option ℕ) :
    Except DecimalError (ℚ × ℚ × ℚ) :=
  match tax_rate with
  | none =>
      match quantize with
      | none => .ok (gross, 0, gross)
      | some k => .ok (decQuantize gross k, decQuantize 0 k, decQuantize gross k)
  | some rate =>
      match decDiv gross (1 + rate) with
      | .error e => .error e
      | .ok net => .ok (compute_gross net rate quantize)

/-- Modelled from the spec: the rounding mode the specification asserts for
`Decimal.quantize` — "round-half-up, i.e. ... round half away from zero".
A value exactly halfway between two integers is rounded away from zero. -/
def roundHalfAwayFromZero (x : ℚ) : ℤ :=
  if 0 ≤ x then ⌊x + 1/2⌋ else -⌊-x + 1/2⌋

/-- Modelled from the spec: quantization to `k` fractional digits under the
round-half-away-from-zero mode the specification claims. -/
def quantizeHalfUp (x : ℚ) (k : ℕ) : ℚ :=
  (roundHalfAwayFromZero (x * 10 ^ k) : ℚ) / 10 ^ k

/-- `Article` from invoice.py (lines 28-57): id, name, tax-category key and
the three price components, plus an optional description.  The id type is a
parameter (the source says "usually int or str"). -/
structure Article (ι : Type) where
  article_id : ι
  name : String
  tax_category : String
  net : ℚ
  tax : ℚ
  gross : ℚ
  description : String := ""
deriving DecidableEq

/-- `Address` from invoice.py (lines 117-140): all fields are strings and
default to the empty string. -/
structure Address where
  first_name : String := ""
  last_name : String := ""
  street : String := ""
  street_number : String := ""
  postcode : String := ""
  location : String := ""
  additional : String := ""
  phone : String := ""
  mail : String := ""
deriving DecidableEq

/-- A calendar date, standing in for Python `datetime.date`; none of the
verified operations inspect it. -/
structure Date where
  year : ℕ
  month : ℕ
  day : ℕ
deriving DecidableEq

/-- `Invoice` from invoice.py (lines 143-208).  `tax_categories` models the
Python dict as a partial map; `articles` models the `defaultdict(list)` as a
total map into lists, a missing key being the empty list. -/
structure Invoice (ι : Type) where
  issuer : Address
  recipient : Address
  date : Date
  service_date : Option Date := none
  payment_information : List String
  tax_categories : String → Option ℚ
  articles : ι → List (Article ι)

/-- `Invoice.__init__` (lines 171-180): articles start as an empty
`defaultdict(list)` and a missing `tax_categories` argument means an empty
dict. -/
def Invoice.make {ι : Type} (issuer recipient : Address) (date : Date)
    (payment_information : List String) (service_date : Option Date := none)
    (tax_categories : Option (String → Option ℚ) := none) : Invoice ι :=
  { issuer := issuer
    recipient := recipient
    date := date
    service_date := service_date
    payment_information := payment_information
    tax_categories := tax_categories.getD fun _ => none
    articles := fun _ => [] }

/-- `Invoice.add_tax_category` (lines 182-189): unconditionally store the
rate under the name, overwriting any previous entry. -/
def Invoice.add_tax_category {ι : Type} (self : Invoice ι) (name : String)
    (tax_rate : ℚ) : Invoice ι :=
  { self with
    tax_categories := fun n => if n = name then some tax_rate else self.tax_categories n }

/-- The `KeyError` raised by `Invoice.add_article` (line 201); its payload
names the offending tax-category key. -/
structure TaxCategoryKeyError where
  category : String
deriving DecidableEq

/-- `Invoice.add_article` (lines 191-202): raise `KeyError` naming the
category when the tax category of the article is not registered, otherwise
append the article to the list stored under its id.  A raise is modelled by
returning the unchanged invoice together with the error. -/
def Invoice.add_article {ι : Type} [DecidableEq ι] (self : Invoice ι)
    (article : Article ι) : Invoice ι × Option TaxCategoryKeyError :=
  if self.tax_categories article.tax_category = none then
    (self, some ⟨article.tax_category⟩)
  else
    ({ self with
        articles := fun i =>
          if i = article.article_id then self.articles i ++ [article]
          else self.articles i },
      none)

/-- Locators (URLs, resource names) are Python strings, modelled as their
character sequences so that slicing (`url[9:]`) and the startswith tests are
directly expressible. -/
abbrev Url := List Char

/-- A value of the `resources` dict in weasyprint_invoice.py: either a
WeasyPrint descriptor dict directly, or a callable taking the resource key
(the duck-typed `callable(value)` test of line 213 becomes a tagged variant).
The descriptor type `δ` is abstract: descriptors are passed through
unmodified. -/
inductive ResourceEntry (δ : Type) where
  | descriptor (d : δ)
  | producer (f : Url → δ)

/-- The three `ValueError` raise sites of `WeasyRenderer.fetch_url`
(lines 205, 211, 219), distinguished by their messages. -/
inductive FetchError where
  | accessDeniedFile (url : Url)
  | resourceNotFound (key : Url)
  | invalidUrl (url : Url)
deriving DecidableEq

/-- The specification groups the fetch errors into two kinds: AccessDenied
(a scheme disallowed by policy, covering both the local-file denial and the
invalid/disallowed-locator denial) and NotFound (a missing resource key). -/
def FetchError.isAccessDenied : FetchError → Bool
  | .accessDeniedFile _ => true
  | .invalidUrl _ => true
  | .resourceNotFound _ => false

/-- The fetch-relevant configuration of `WeasyRenderer` (weasyprint_invoice.py
lines 104-146): the resources dict, the two policy flags with their default
values, and the optional overriding fetcher.  `fetcher_args` is folded into
the modelled fetcher functions. -/
structure WeasyRenderer (δ : Type) where
  resources : Url → Option (ResourceEntry δ)
  allow_files : Bool := false
  fallback_default : Bool := false
  url_fetcher : Option (Url → δ) := none

/-- The string "file://" (local-file scheme tested on line 203). -/
def fileScheme : Url := "file://".data

/-- The string "resource:" (internal resource scheme tested on line 208;
its length 9 is the amount sliced off on line 209). -/
def resourceScheme : Url := "resource:".data

/-- `WeasyRenderer.fetch_url` (lines 189-219).  `default_url_fetcher` is the
WeasyPrint library fetcher imported at module level, passed as a parameter;
raising `ValueError` is modelled as `Except.error`. -/
def WeasyRenderer.fetch_url {δ : Type} (self : WeasyRenderer δ)
    (default_url_fetcher : Url → δ) (url : Url) : Except FetchError δ :=
  match self.url_fetcher with
  | some f => .ok (f url)
  | none =>
    if List.isPrefixOf fileScheme url then
      if !self.allow_files then .error (.accessDeniedFile url)
      else .ok (default_url_fetcher url)
    else if List.isPrefixOf resourceScheme url then
      let key := url.drop 9
      match self.resources key with
      | none => .error (.resourceNotFound key)
      | some (.descriptor d) => .ok d
      | some (.producer f) => .ok (f key)
    else if self.fallback_default then .ok (default_url_fetcher url)
    else .error (.invalidUrl url)

/-! ## Helper lemmas about ROUND_HALF_EVEN quantization -/

/-- `roundHalfEven` returns a nearest integer: no integer is strictly closer. -/
theorem roundHalfEven_nearest (x : ℚ) (m : ℤ) :
    |x - (roundHalfEven x : ℚ)| ≤ |x - (m : ℚ)| := by
  have hf : (⌊x⌋ : ℚ) ≤ x := Int.floor_le x
  have hf1 : x < ⌊x⌋ + 1 := Int.lt_floor_add_one x
  have hcast : ((⌊x⌋ + 1 : ℤ) : ℚ) = (⌊x⌋ : ℚ) + 1 := by push_cast; ring
  rcases le_or_lt (m : ℚ) (⌊x⌋ : ℚ) with hm | hm
  · rw [abs_of_nonneg (by linarith : (0:ℚ) ≤ x - m)]
    rw [roundHalfEven]
    split_ifs with h1 h2 h3
    · rw [abs_of_nonneg (by linarith)]; linarith
    · rw [hcast, abs_of_nonpos (by linarith)]; linarith
    · rw [abs_of_nonneg (by linarith)]; linarith
    · rw [hcast, abs_of_nonpos (by linarith)]; linarith
  · have hm1 : (⌊x⌋ : ℚ) + 1 ≤ (m : ℚ) := by
      have h : ⌊x⌋ < m := by exact_mod_cast hm
      have h' : ⌊x⌋ + 1 ≤ m := h
      exact_mod_cast h'
    rw [abs_sub_comm x (m : ℚ), abs_of_nonneg (by linarith : (0:ℚ) ≤ (m : ℚ) - x)]
    rw [roundHalfEven]
    split_ifs with h1 h2 h3
    · rw [abs_of_nonneg (by linarith)]; linarith
    · rw [hcast, abs_of_nonpos (by linarith)]; linarith
    · rw [abs_of_nonneg (by linarith)]; linarith
    · rw [hcast, abs_of_nonpos (by linarith)]; linarith

/-- When the input is exactly halfway between two integers, `roundHalfEven`
returns the even one. -/
theorem roundHalfEven_tie (x : ℚ)
    (h : |x - (roundHalfEven x : ℚ)| = 1/2) : roundHalfEven x % 2 = 0 := by
  have hf : (⌊x⌋ : ℚ) ≤ x := Int.floor_le x
  have hf1 : x < ⌊x⌋ + 1 := Int.lt_floor_add_one x
  have hcast : ((⌊x⌋ + 1 : ℤ) : ℚ) = (⌊x⌋ : ℚ) + 1 := by push_cast; ring
  rw [roundHalfEven] at h ⊢
  split_ifs at h ⊢ with h1 h2 h3
  · rw [abs_of_nonneg (by linarith)] at h; linarith
  · rw [hcast, abs_of_nonpos (by linarith)] at h; linarith
  · exact h3
  · omega

/-- Rearrangement used to relate a quantized value to its scaled integer. -/
theorem sub_div_ten_pow (x y : ℚ) (k : ℕ) :
    x - y / 10 ^ k = (x * 10 ^ k - y) / 10 ^ k := by
  have hs : ((10 : ℚ) ^ k) ≠ 0 := by positivity
  rw [sub_div, mul_div_assoc, div_self hs, mul_one]

/-- The rounding error of `decQuantize` as a scaled integer error. -/
theorem decQuantize_diff (x : ℚ) (k : ℕ) :
    x - decQuantize x k = (x * 10 ^ k - roundHalfEven (x * 10 ^ k)) / 10 ^ k := by
  rw [decQuantize, sub_div_ten_pow]

/-- `decQuantize` returns a nearest multiple of `10 ^ (-k)`. -/
theorem decQuantize_nearest (x : ℚ) (k : ℕ) (m : ℤ) :
    |x - decQuantize x k| ≤ |x - (m : ℚ) / 10 ^ k| := by
  have hs : (0 : ℚ) < 10 ^ k := by positivity
  rw [decQuantize_diff]
  rw [sub_div_ten_pow x (m : ℚ) k]
  rw [abs_div, abs_div, abs_of_pos hs]
  exact (div_le_div_iff_of_pos_right hs).mpr (roundHalfEven_nearest _ m)

/-- On a tie (the input exactly halfway between two adjacent multiples of
`10 ^ (-k)`), `decQuantize` picks the multiple with even scaled integer. -/
theorem decQuantize_tie (x : ℚ) (k : ℕ)
    (h : |x - decQuantize x k| = 1 / (2 * 10 ^ k)) :
    ∃ m : ℤ, m % 2 = 0 ∧ decQuantize x k = (m : ℚ) / 10 ^ k := by
  have hs : (0 : ℚ) < 10 ^ k := by positivity
  refine ⟨roundHalfEven (x * 10 ^ k), ?_, rfl⟩
  apply roundHalfEven_tie
  rw [decQuantize_diff, abs_div, abs_of_pos hs,
    div_eq_div_iff (ne_of_gt hs) (by positivity : (2 * 10 ^ k : ℚ) ≠ 0)] at h
  have h3 : |x * 10 ^ k - (roundHalfEven (x * 10 ^ k) : ℚ)| * 2 * 10 ^ k
      = 1 * 10 ^ k := by linarith
  have h4 := mul_right_cancel₀ (ne_of_gt hs) h3
  linarith

/-- Quantizing zero gives zero at every exponent. -/
theorem decQuantize_zero (k : ℕ) : decQuantize 0 k = 0 := by
  rw [decQuantize, roundHalfEven]
  norm_num

/-! ## Claim theorems -/

/-- Claim C1, counterexample to the stated rounding mode: at
`net = 0.005`, `tax_rate = 0` and quantization `0.01`, the code returns a
net component of `0.00` (ROUND_HALF_EVEN), while rounding to the nearest
multiple of `0.01` half away from zero would give `0.01`. -/
theorem compute_gross_half_up_counterexample :
    (compute_gross (1/200) 0 (some 2)).1 = 0 ∧
    quantizeHalfUp (1/200) 2 = 1/100 ∧
    (compute_gross (1/200) 0 (some 2)).1 ≠ quantizeHalfUp (1/200) 2 := by
  have hf : ⌊(1/2 : ℚ)⌋ = 0 := by
    rw [Int.floor_eq_iff]
    norm_num
  have hq : (compute_gross (1/200) 0 (some 2)).1 = 0 := by
    show decQuantize (1/200) 2 = 0
    rw [decQuantize, show (1/200 : ℚ) * 10 ^ 2 = 1/2 by norm_num, roundHalfEven, hf]
    norm_num
  have hup : quantizeHalfUp (1/200) 2 = 1/100 := by
    rw [quantizeHalfUp, show (1/200 : ℚ) * 10 ^ 2 = 1/2 by norm_num, roundHalfAwayFromZero]
    norm_num
  exact ⟨hq, hup, by rw [hq, hup]; norm_num⟩

/-- Claim C1 (amended): for every net, tax rate and quantization exponent,
`compute_gross` rounds the input net, and the full-precision tax
`net * tax_rate`, each to a nearest multiple of the quantization step, with
a value exactly halfway between two multiples rounded to the one with even
scaled integer (ROUND_HALF_EVEN), before summing them into gross. -/
theorem compute_gross_rounds_half_even (net tax_rate : ℚ) (k : ℕ) :
    (∃ m : ℤ, (compute_gross net tax_rate (some k)).1 = (m : ℚ) / 10 ^ k) ∧
    (∀ m : ℤ, |net - (compute_gross net tax_rate (some k)).1|
        ≤ |net - (m : ℚ) / 10 ^ k|) ∧
    (|net - (compute_gross net tax_rate (some k)).1| = 1 / (2 * 10 ^ k) →
      ∃ m : ℤ, m % 2 = 0 ∧ (compute_gross net tax_rate (some k)).1 = (m : ℚ) / 10 ^ k) ∧
    (∃ m : ℤ, (compute_gross net tax_rate (some k)).2.1 = (m : ℚ) / 10 ^ k) ∧
    (∀ m : ℤ, |net * tax_rate - (compute_gross net tax_rate (some k)).2.1|
        ≤ |net * tax_rate - (m : ℚ) / 10 ^ k|) ∧
    (|net * tax_rate - (compute_gross net tax_rate (some k)).2.1| = 1 / (2 * 10 ^ k) →
      ∃ m : ℤ, m % 2 = 0 ∧
        (compute_gross net tax_rate (some k)).2.1 = (m : ℚ) / 10 ^ k) ∧
    (compute_gross net tax_rate (some k)).2.2
      = (compute_gross net tax_rate (some k)).1 + (compute_gross net tax_rate (some k)).2.1 :=
  ⟨⟨roundHalfEven (net * 10 ^ k), rfl⟩,
    fun m => decQuantize_nearest net k m,
    fun h => decQuantize_tie net k h,
    ⟨roundHalfEven (net * tax_rate * 10 ^ k), rfl⟩,
    fun m => decQuantize_nearest (net * tax_rate) k m,
    fun h => decQuantize_tie (net * tax_rate) k h,
    rfl⟩

/-- Witness for C1 at `net = 0.005`, `tax_rate = 0`, `k = 2`: the tie
hypothesis holds (the net is exactly halfway between multiples of `0.01`)
and the rounded net is an even multiple of the step. -/
theorem compute_gross_rounds_half_even_witness :
    |(1/200 : ℚ) - (compute_gross (1/200) 0 (some 2)).1| = 1 / (2 * 10 ^ 2) ∧
    (∃ m : ℤ, m % 2 = 0 ∧ (compute_gross (1/200) 0 (some 2)).1 = (m : ℚ) / 10 ^ 2) := by
  have hf : ⌊(1/2 : ℚ)⌋ = 0 := by
    rw [Int.floor_eq_iff]
    norm_num
  have hq : (compute_gross (1/200) 0 (some 2)).1 = 0 := by
    show decQuantize (1/200) 2 = 0
    rw [decQuantize, show (1/200 : ℚ) * 10 ^ 2 = 1/2 by norm_num, roundHalfEven, hf]
    norm_num
  have htie : |(1/200 : ℚ) - (compute_gross (1/200) 0 (some 2)).1| = 1 / (2 * 10 ^ 2) := by
    rw [hq]
    norm_num
  exact ⟨htie, (compute_gross_rounds_half_even (1/200) 0 2).2.2.1 htie⟩

/-- Claim C2: with no override fetcher, a locator with the file scheme is
denied (AccessDenied) when `allow_files` is false and delegated to the
default fetch when it is true, regardless of `fallback_default`; a locator
with neither the file scheme nor the resource scheme is delegated to the
default fetch exactly when `fallback_default` is true and otherwise denied
with an AccessDenied-kind error. -/
theorem fetch_url_scheme_policy {δ : Type} (default_url_fetcher : Url → δ)
    (r : WeasyRenderer δ) (url : Url) (hov : r.url_fetcher = none) :
    (List.isPrefixOf fileScheme url = true → r.allow_files = false →
      r.fetch_url default_url_fetcher url = .error (.accessDeniedFile url) ∧
      (FetchError.accessDeniedFile url).isAccessDenied = true) ∧
    (List.isPrefixOf fileScheme url = true → r.allow_files = true →
      r.fetch_url default_url_fetcher url = .ok (default_url_fetcher url)) ∧
    (List.isPrefixOf fileScheme url = false →
      List.isPrefixOf resourceScheme url = false →
      (r.fallback_default = true →
        r.fetch_url default_url_fetcher url = .ok (default_url_fetcher url)) ∧
      (r.fallback_default = false →
        r.fetch_url default_url_fetcher url = .error (.invalidUrl url) ∧
        (FetchError.invalidUrl url).isAccessDenied = true)) := by
  refine ⟨fun h1 h2 => ⟨?_, rfl⟩, fun h1 h2 => ?_,
    fun h1 h2 => ⟨fun h3 => ?_, fun h3 => ⟨?_, rfl⟩⟩⟩
  · simp [WeasyRenderer.fetch_url, hov, h1, h2]
  · simp [WeasyRenderer.fetch_url, hov, h1, h2]
  · simp [WeasyRenderer.fetch_url, hov, h1, h2, h3]
  · simp [WeasyRenderer.fetch_url, hov, h1, h2, h3]

/-- Witness for C2: with the default configuration (everything disabled,
no override), a file URL is rejected with the access-denied error. -/
theorem fetch_url_scheme_policy_witness :
    WeasyRenderer.fetch_url (δ := ℕ) ⟨fun _ => none, false, false, none⟩
        (fun _ => 0) "file://secret".data
      = Except.error (FetchError.accessDeniedFile "file://secret".data) :=
  ((fetch_url_scheme_policy (fun _ => 0) ⟨fun _ => none, false, false, none⟩
      "file://secret".data rfl).1 (by decide) rfl).1

/-- Claim C3: with no override fetcher, a locator of the form
`"resource:" ++ key` is resolved by looking up `key` (the locator with its
first nine characters stripped) in the resources mapping: a missing key is
exactly the NotFound failure, a callable entry is invoked with the key as
its sole argument, and a plain descriptor entry is returned unchanged. -/
theorem fetch_url_resource_lookup {δ : Type} (default_url_fetcher : Url → δ)
    (r : WeasyRenderer δ) (key : Url) (hov : r.url_fetcher = none) :
    r.fetch_url default_url_fetcher (resourceScheme ++ key) =
      (match r.resources key with
        | none => Except.error (FetchError.resourceNotFound key)
        | some (ResourceEntry.descriptor d) => Except.ok d
        | some (ResourceEntry.producer f) => Except.ok (f key)) ∧
    (r.fetch_url default_url_fetcher (resourceScheme ++ key)
        = Except.error (FetchError.resourceNotFound key) ↔ r.resources key = none) := by
  have hp1 : List.isPrefixOf fileScheme (resourceScheme ++ key) = false := by
    simp [fileScheme, resourceScheme, List.isPrefixOf]
  have hp2 : List.isPrefixOf resourceScheme (resourceScheme ++ key) = true := by
    simp [resourceScheme, List.isPrefixOf]
  have hdrop : (resourceScheme ++ key).drop 9 = key := rfl
  have heq : r.fetch_url default_url_fetcher (resourceScheme ++ key) =
      (match r.resources key with
        | none => Except.error (FetchError.resourceNotFound key)
        | some (ResourceEntry.descriptor d) => Except.ok d
        | some (ResourceEntry.producer f) => Except.ok (f key)) := by
    rcases hres : r.resources key with _ | entry
    · simp [WeasyRenderer.fetch_url, hov, hp1, hp2, hdrop, hres]
    · cases entry <;> simp [WeasyRenderer.fetch_url, hov, hp1, hp2, hdrop, hres]
  refine ⟨heq, ?_⟩
  rw [heq]
  rcases r.resources key with _ | (_ | _) <;> simp

/-- Witness for C3: a mapping holding a plain descriptor under
`"logo.png"` resolves `resource:logo.png` to that descriptor. -/
theorem fetch_url_resource_lookup_witness :
    WeasyRenderer.fetch_url (δ := ℕ)
        ⟨fun k => if k = "logo.png".data then some (ResourceEntry.descriptor 7) else none,
          false, false, none⟩
        (fun _ => 0) (resourceScheme ++ "logo.png".data)
      = Except.ok 7 := by
  have h := (fetch_url_resource_lookup (δ := ℕ) (fun _ => 0)
      ⟨fun k => if k = "logo.png".data then some (ResourceEntry.descriptor 7) else none,
        false, false, none⟩
      "logo.png".data rfl).1
  simpa using h

/-- Claim C4: for nonnegative net and tax rate and any quantization
exponent, the gross component returned by `compute_gross` is exactly the
sum of the returned net and tax components. -/
theorem compute_gross_sum_exact (net tax_rate : ℚ) (k : ℕ)
    (hnet : 0 ≤ net) (hrate : 0 ≤ tax_rate) :
    (compute_gross net tax_rate (some k)).2.2
      = (compute_gross net tax_rate (some k)).1
        + (compute_gross net tax_rate (some k)).2.1 :=
  rfl

/-- Witness for C4 at `net = 1`, `tax_rate = 0.19`, `k = 2`. -/
theorem compute_gross_sum_exact_witness :
    (0 : ℚ) ≤ 1 ∧ (0 : ℚ) ≤ 19/100 ∧
    (compute_gross 1 (19/100) (some 2)).2.2
      = (compute_gross 1 (19/100) (some 2)).1
        + (compute_gross 1 (19/100) (some 2)).2.1 :=
  ⟨by norm_num, by norm_num,
    compute_gross_sum_exact 1 (19/100) 2 (by norm_num) (by norm_num)⟩

/-- Claim C5: for a present tax rate (with nonzero `1 + tax_rate`, the only
case in which the division succeeds), `compute_taxes` returns exactly the
triple produced by `compute_gross` applied to the full-precision net
`gross / (1 + tax_rate)`, the tax rate and the quantization argument. -/
theorem compute_taxes_delegates (gross rate : ℚ) (q : Option ℕ)
    (h : 1 + rate ≠ 0) :
    compute_taxes gross (some rate) q
      = Except.ok (compute_gross (gross / (1 + rate)) rate q) := by
  simp [compute_taxes, decDiv, h]

/-- Witness for C5 at `gross = 119`, `tax_rate = 0.19`, quantization 2. -/
theorem compute_taxes_delegates_witness :
    (1 + (19/100 : ℚ) ≠ 0) ∧
    compute_taxes 119 (some (19/100)) (some 2)
      = Except.ok (compute_gross (119 / (1 + 19/100)) (19/100) (some 2)) :=
  ⟨by norm_num, compute_taxes_delegates 119 (19/100) (some 2) (by norm_num)⟩

/-- Claim C6: with an absent tax rate and a quantization exponent,
`compute_taxes` returns the quantized gross as net, the quantized zero
(which is zero) as tax, and the quantized gross as gross. -/
theorem compute_taxes_no_tax (x : ℚ) (k : ℕ) :
    compute_taxes x none (some k)
      = Except.ok (decQuantize x k, decQuantize 0 k, decQuantize x k) ∧
    decQuantize 0 k = 0 :=
  ⟨rfl, decQuantize_zero k⟩

/-- Claim C7: adding an article whose tax category is not registered fails
at add-time with the error naming the offending category key, and leaves the
invoice (in particular its articles mapping) unchanged, so the article is
not added under its id. -/
theorem add_article_unregistered_category {ι : Type} [DecidableEq ι]
    (inv : Invoice ι) (a : Article ι)
    (h : inv.tax_categories a.tax_category = none) :
    inv.add_article a = (inv, some ⟨a.tax_category⟩) ∧
    (inv.add_article a).1.articles a.article_id = inv.articles a.article_id ∧
    (a ∉ inv.articles a.article_id → a ∉ (inv.add_article a).1.articles a.article_id) := by
  have he : inv.add_article a = (inv, some ⟨a.tax_category⟩) := by
    rw [Invoice.add_article, if_pos h]
  exact ⟨he, by rw [he], fun hmem => by rw [he]; exact hmem⟩

/-- Witness for C7: an invoice whose registry only holds `"19%"` rejects an
article with category `"7%"`, returning the unchanged invoice and the error
naming `"7%"`. -/
theorem add_article_unregistered_category_witness :
    Invoice.add_article (ι := ℕ)
        { issuer := {}, recipient := {}, date := ⟨2019, 1, 1⟩,
          payment_information := [],
          tax_categories := fun n => if n = "19%" then some (19/100) else none,
          articles := fun _ => [] }
        ⟨1, "ticket", "7%", 100, 7, 107, ""⟩
      = (({ issuer := {}, recipient := {}, date := ⟨2019, 1, 1⟩,
              payment_information := [],
              tax_categories := fun n => if n = "19%" then some (19/100) else none,
              articles := fun _ => [] } : Invoice ℕ), some ⟨"7%"⟩) :=
  (add_article_unregistered_category
      { issuer := {}, recipient := {}, date := ⟨2019, 1, 1⟩,
        payment_information := [],
        tax_categories := fun n => if n = "19%" then some (19/100) else none,
        articles := fun _ => [] }
      ⟨1, "ticket", "7%", 100, 7, 107, ""⟩ (by simp)).1

/-- Claim C8: calling `compute_taxes` with tax rate `-1` makes the division
`gross / (1 + tax_rate)` a division by zero, and the resulting arithmetic
error (`InvalidOperation` for the 0/0 case, `DivisionByZero` otherwise)
propagates to the caller untranslated. -/
theorem compute_taxes_tax_rate_neg_one (gross : ℚ) (q : Option ℕ) :
    compute_taxes gross (some (-1)) q
      = Except.error
          (if gross = 0 then DecimalError.invalidOperation
            else DecimalError.divisionByZero) := by
  have h : (1 : ℚ) + (-1) = 0 := by norm_num
  simp [compute_taxes, decDiv, h]

/-- Claim C9: the round trip at 100.00 with 19% tax and quantization 0.01 -
gross of `compute_gross` is 119, feeding it back through `compute_taxes`
returns gross 119, within one quantization unit of the fed-in gross. -/
theorem round_trip_gross :
    (compute_gross 100 (19/100) (some 2)).2.2 = 119 ∧
    compute_taxes ((compute_gross 100 (19/100) (some 2)).2.2) (some (19/100)) (some 2)
      = Except.ok (100, 19, 119) ∧
    |(119 : ℚ) - (compute_gross 100 (19/100) (some 2)).2.2| ≤ 1/100 := by
  have e1 : decQuantize 100 2 = 100 := by
    rw [decQuantize, roundHalfEven]
    norm_num
  have e2 : decQuantize 19 2 = 19 := by
    rw [decQuantize, roundHalfEven]
    norm_num
  have hg : compute_gross 100 (19/100) (some 2) = (100, 19, 119) := by
    show (decQuantize 100 2, decQuantize (100 * (19/100)) 2,
        decQuantize 100 2 + decQuantize (100 * (19/100)) 2) = (100, 19, 119)
    rw [show (100 : ℚ) * (19/100) = 19 by norm_num, e1, e2]
    norm_num
  have hd : decDiv 119 (1 + 19/100) = .ok 100 := by
    rw [decDiv, if_neg (by norm_num : ¬(1 + (19:ℚ)/100 = 0))]
    norm_num
  refine ⟨by rw [hg], ?_, by rw [hg]; norm_num⟩
  rw [hg]
  show compute_taxes 119 (some (19/100)) (some 2) = Except.ok (100, 19, 119)
  simp [compute_taxes, hd, hg]

/-- Claim C10: `add_tax_category` always succeeds, setting the entry for the
name to the given rate (silently overwriting any previous rate), leaving
every other registry entry and the whole articles mapping untouched. -/
theorem add_tax_category_registers {ι : Type} (inv : Invoice ι)
    (name : String) (rate : ℚ) :
    (inv.add_tax_category name rate).tax_categories name = some rate ∧
    (∀ m : String, m ≠ name →
      (inv.add_tax_category name rate).tax_categories m = inv.tax_categories m) ∧
    (inv.add_tax_category name rate).articles = inv.articles := by
  refine ⟨?_, fun m hm => ?_, rfl⟩
  · simp [Invoice.add_tax_category]
  · simp [Invoice.add_tax_category, hm]

/-- Witness for C10: overwriting-free lookup at a different name, on a
concrete invoice whose registry already holds an entry being replaced. -/
theorem add_tax_category_registers_witness :
    ("7%" : String) ≠ "19%" ∧
    (Invoice.add_tax_category (ι := ℕ)
        { issuer := {}, recipient := {}, date := ⟨2019, 1, 1⟩,
          payment_information := [],
          tax_categories := fun n => if n = "19%" then some (7/100) else none,
          articles := fun _ => [] }
        "19%" (19/100)).tax_categories "7%"
      = (fun n => if n = "19%" then some ((7:ℚ)/100) else none) "7%" :=
  ⟨by simp, (add_tax_category_registers
      { issuer := {}, recipient := {}, date := ⟨2019, 1, 1⟩,
        payment_information := [],
        tax_categories := fun n => if n = "19%" then some (7/100) else none,
        articles := fun _ => [] }
      "19%" (19/100)).2.1 "7%" (by simp)⟩
